import Mathlib

/-!
Shallow embedding of the fruit-inventory backend's authentication core
(`src/utils/password.ts`, `src/config/jwt.ts`,
`src/middleware/auth.middleware.ts`, `src/controllers/auth.controller.ts`).

Persistent state (the Prisma store) is modelled as an explicit `DB` record
holding the user table, the refresh-token table and the login audit log;
each controller action is a pure function from the current store (plus the
request data and the current time in milliseconds) to a response and the
next store.  Randomness (generated ids, bcrypt salts, fresh refresh-token
strings) is made explicit as parameters.
-/

namespace FruitApp

/-- Modelled from the spec: the bcryptjs hashing primitive is an external
library, not code of this repository.  Per the spec (§4.1), `hash` "applies
an adaptive, salted one-way hash" that is "deterministic only in the sense
that verification always succeeds for the same plaintext; the stored hash
itself is salted and non-deterministic across calls".  The digest is
modelled as a salted function of the plaintext. -/
def bcryptDigest (salt : Nat) (p : String) : String :=
  toString salt ++ "$" ++ p

/-- A stored bcrypt hash: the salt together with the salted digest. -/
structure BcryptHash where
  salt : Nat
  digest : String
  deriving DecidableEq, Repr

/-- The textual form of a stored hash, in the bcrypt output format
`$2b$12$<salt>$<digest>` (cost factor 12 per `PasswordService.SALT_ROUNDS`). -/
def BcryptHash.render (h : BcryptHash) : String :=
  "$2b$12$" ++ toString h.salt ++ "$" ++ h.digest

/-- `PasswordService.hashPassword`: salt generation is external randomness,
made explicit as the `salt` parameter. -/
def hashPassword (salt : Nat) (password : String) : BcryptHash :=
  ⟨salt, bcryptDigest salt password⟩

/-- `PasswordService.comparePassword`: re-derive the digest from the stored
salt and compare. -/
def comparePassword (password : String) (hashed : BcryptHash) : Bool :=
  hashed.digest == bcryptDigest hashed.salt password

/-! ## Password strength validation (`PasswordService.validatePasswordStrength`) -/

def msgLength : String := "Password must be at least 8 characters long"
def msgUpper : String := "Password must contain at least one uppercase letter"
def msgLower : String := "Password must contain at least one lowercase letter"
def msgDigit : String := "Password must contain at least one number"
def msgSpecial : String := "Password must contain at least one special character"
def msgCommon : String :=
  "Password is too common. Please choose a more secure password"

/-- The punctuation set of the regex `/[!@#$%^&*(),.?":\x7b\x7d|<>]/`. -/
def specialCharacterSet : String := "!@#$%^&*(),.?\":\x7b\x7d|<>"

/-- JavaScript `String.prototype.toLowerCase`, written on the character
list so that it reduces in the kernel. -/
def strToLower (s : String) : String := ⟨s.data.map Char.toLower⟩

/-- The fixed denylist of common passwords. -/
def commonPasswords : List String :=
  ["password", "123456", "123456789", "qwerty", "abc123",
   "password123", "admin", "letmein", "welcome", "12345678"]

structure StrengthResult where
  valid : Bool
  errors : List String
  deriving DecidableEq, Repr

/-- `PasswordService.validatePasswordStrength`: accumulates one message per
violated rule, in source order; `valid` iff no rule is violated. -/
def validatePasswordStrength (password : String) : StrengthResult :=
  let errors : List String :=
    (if password.length < 8 then [msgLength] else []) ++
    (if password.data.any (fun c => 'A' ≤ c && c ≤ 'Z') then [] else [msgUpper]) ++
    (if password.data.any (fun c => 'a' ≤ c && c ≤ 'z') then [] else [msgLower]) ++
    (if password.data.any (fun c => '0' ≤ c && c ≤ '9') then [] else [msgDigit]) ++
    (if password.data.any (fun c => specialCharacterSet.data.contains c) then []
     else [msgSpecial]) ++
    (if commonPasswords.contains (strToLower password) then [msgCommon] else [])
  ⟨errors.length == 0, errors⟩

/-! ## Data model (`prisma/schema.prisma`, as used by the auth core) -/

/-- A row of the `User` table.  Timestamps are milliseconds since epoch
(JavaScript `Date` values); nullable columns are `Option`. -/
structure User where
  id : Nat
  username : String
  email : String
  password : BcryptHash
  role : String
  isActive : Bool
  failedLoginAttempts : Nat
  lockoutUntil : Option Nat
  passwordChangedAt : Option Nat
  lastLoginAt : Option Nat
  lastLoginIP : Option String
  deriving DecidableEq, Repr

/-- A row of the `RefreshToken` table. -/
structure RefreshTokenRow where
  token : String
  userId : Nat
  expiresAt : Nat
  isRevoked : Bool
  deriving DecidableEq, Repr

/-- A row of the `LoginLog` table (append-only audit log). -/
structure LoginLog where
  userId : Option Nat
  email : String
  ipAddress : String
  userAgent : String
  success : Bool
  reason : String
  deriving DecidableEq, Repr

/-- The persistent store. -/
structure DB where
  users : List User
  refreshTokens : List RefreshTokenRow
  loginLogs : List LoginLog
  deriving DecidableEq, Repr

/-- `prisma.user.findUnique(\x7b where: \x7b email \x7d \x7d)`. -/
def findUserByEmail (db : DB) (email : String) : Option User :=
  db.users.find? (fun u => u.email == email)

/-- `prisma.user.update(\x7b where: \x7b id \x7d, data \x7d)`: rewrite the
row(s) with the given id, leave every other row unchanged. -/
def updateUserById (db : DB) (uid : Nat) (f : User → User) : DB :=
  { db with users := db.users.map (fun u => if u.id == uid then f u else u) }

/-- `prisma.loginLog.create`. -/
def appendLog (db : DB) (entry : LoginLog) : DB :=
  { db with loginLogs := db.loginLogs ++ [entry] }

/-! ## Token service (`src/config/jwt.ts`) -/

/-- The claims `JWTService.generateAccessToken` embeds into a signed access
token.  The signing itself is the external `jsonwebtoken` library; the token
is modelled by its embedded claims (issuer/audience are fixed strings bound
to the service and carry no per-request information). -/
structure AccessTokenClaims where
  userId : Nat
  username : String
  role : String
  deriving DecidableEq, Repr

/-- The payload delivered by `JWTService.verifyAccessToken` on success:
the embedded claims plus the `iat` issued-at timestamp (seconds). -/
structure JWTPayload where
  userId : Nat
  username : String
  role : String
  iat : Nat
  deriving DecidableEq, Repr

/-- `JWTService.extractTokenFromHeader`. -/
def extractTokenFromHeader (authHeader : Option String) : Option String :=
  match authHeader with
  | none => none
  | some h => if h.startsWith "Bearer " then some (h.drop 7) else none

/-! ## Auth controller (`src/controllers/auth.controller.ts`) -/

/-- Outcome of `AuthController.register` (response JSON). -/
inductive RegisterResult where
  | conflict (message : String)
  | weakPassword (message : String) (errors : List String)
  | created (id : Nat) (username : String) (email : String) (role : String)
  deriving DecidableEq, Repr

/-- `AuthController.register`.  `newId` is the id the store assigns to the
created row and `salt` the bcrypt salt — both external randomness. -/
def register (db : DB) (username email password ipAddress userAgent : String)
    (newId salt : Nat) : RegisterResult × DB :=
  let usernameLowerCase := strToLower username
  match db.users.find?
      (fun u => u.email == email || u.username == usernameLowerCase) with
  | some existingUser =>
      (.conflict (if existingUser.email == email then "Email already exists"
                  else "Username already exists"), db)
  | none =>
      let passwordValidation := validatePasswordStrength password
      if !passwordValidation.valid then
        (.weakPassword "Password does not meet security requirements"
          passwordValidation.errors, db)
      else
        let user : User :=
          { id := newId, username := usernameLowerCase, email := email
            password := hashPassword salt password
            role := "user", isActive := true, failedLoginAttempts := 0
            lockoutUntil := none, passwordChangedAt := none
            lastLoginAt := none, lastLoginIP := none }
        let db := { db with users := db.users ++ [user] }
        let db := appendLog db
          ⟨some user.id, user.email, ipAddress, userAgent, true,
           "User registration"⟩
        (.created user.id user.username user.email user.role, db)

/-- Outcome of `AuthController.login` (response JSON; `ok` also records the
refresh-token cookie that is set). -/
inductive LoginResult where
  | err (status : Nat) (message : String)
  | ok (userId : Nat) (username : String) (email : String) (role : String)
      (accessToken : AccessTokenClaims) (refreshCookie : String)
  deriving DecidableEq, Repr

/-- `user.lockoutUntil && user.lockoutUntil > new Date()`. -/
def isLockedOut (u : User) (now : Nat) : Bool :=
  match u.lockoutUntil with
  | some t => now < t
  | none => false

/-- `AuthController.login`.  `now` is the current time in milliseconds and
`freshToken` the refresh-token string produced by
`JWTService.generateRefreshToken` (external randomness). -/
def login (db : DB) (now : Nat) (email password ipAddress userAgent
    freshToken : String) : LoginResult × DB :=
  match findUserByEmail db email with
  | none =>
      (.err 401 "Invalid email or password",
       appendLog db ⟨none, email, ipAddress, userAgent, false, "User not found"⟩)
  | some user =>
      if !user.isActive then
        (.err 401 "Account has been deactivated",
         appendLog db ⟨some user.id, email, ipAddress, userAgent, false,
           "Account deactivated"⟩)
      else if isLockedOut user now then
        (.err 423 "Account is temporarily locked due to too many failed attempts",
         appendLog db ⟨some user.id, email, ipAddress, userAgent, false,
           "Account locked"⟩)
      else if !(comparePassword password user.password) then
        let newAttempts := user.failedLoginAttempts + 1
        let db := updateUserById db user.id (fun u =>
          { u with failedLoginAttempts := newAttempts
                   lockoutUntil := if newAttempts ≥ 5
                     then some (now + 30 * 60 * 1000) else none })
        (.err 401 "Invalid email or password",
         appendLog db ⟨some user.id, email, ipAddress, userAgent, false,
           "Invalid password (attempt " ++ toString newAttempts ++ ")"⟩)
      else
        let db := updateUserById db user.id (fun u =>
          { u with failedLoginAttempts := 0, lockoutUntil := none
                   lastLoginAt := some now, lastLoginIP := some ipAddress })
        let db := { db with refreshTokens := db.refreshTokens ++
          [⟨freshToken, user.id, now + 7 * 24 * 60 * 60 * 1000, false⟩] }
        let db := appendLog db
          ⟨some user.id, email, ipAddress, userAgent, true, "Successful login"⟩
        (.ok user.id user.username user.email user.role
          ⟨user.id, user.username, user.role⟩ freshToken, db)

/-- Outcome of `AuthController.refreshToken`. -/
inductive RefreshResult where
  | err (status : Nat) (message : String)
  | ok (accessToken : AccessTokenClaims)
  deriving DecidableEq, Repr

/-- `AuthController.refreshToken`.  The store lookup inlines prisma's
`findFirst(\x7b token, isRevoked: false, expiresAt: \x7b gt: now \x7d \x7d)`
with the `user` relation included (looked up by the row's `userId`). -/
def refreshTokenAction (db : DB) (now : Nat) (cookie : Option String) :
    RefreshResult × DB :=
  match cookie with
  | none => (.err 401 "Refresh token not found", db)
  | some tok =>
      match db.refreshTokens.find? (fun r =>
          r.token == tok && !r.isRevoked && decide (now < r.expiresAt)) with
      | none => (.err 401 "Invalid or expired refresh token", db)
      | some tokenRecord =>
          match db.users.find? (fun u => u.id == tokenRecord.userId) with
          | none => (.err 401 "Invalid or expired refresh token", db)
          | some owner =>
              if !owner.isActive then
                (.err 401 "Invalid or expired refresh token", db)
              else
                (.ok ⟨owner.id, owner.username, owner.role⟩, db)

/-- Response of `AuthController.logout`: both paths clear the cookie and
return the same success JSON. -/
structure LogoutResponse where
  status : Nat
  success : Bool
  message : String
  clearsCookie : Bool
  deriving DecidableEq, Repr

/-- `AuthController.logout`.  `callerId` is `req.user!.userId`, attached by
the authentication middleware; the cookie value may be absent. -/
def logout (db : DB) (callerId : Nat) (cookie : Option String) :
    LogoutResponse × DB :=
  match cookie with
  | none => (⟨200, true, "Logged out successfully", true⟩, db)
  | some tok =>
      (⟨200, true, "Logged out successfully", true⟩,
       { db with refreshTokens := db.refreshTokens.map (fun r =>
           if r.token == tok && r.userId == callerId
           then { r with isRevoked := true } else r) })

/-! ## Authentication middleware (`src/middleware/auth.middleware.ts`) -/

/-- The request context attached as `req.user` on success. -/
structure AuthContext where
  userId : Nat
  username : String
  role : String
  deriving DecidableEq, Repr

inductive AuthResult where
  | rejected (status : Nat) (message : String)
  | authenticated (ctx : AuthContext)
  deriving DecidableEq, Repr

/-- `authenticate`, from the point where `JWTService.verifyAccessToken` has
returned `payload` (steps 3–5 of the middleware): load the user by id
requiring `isActive`, reject tokens issued before the last password change,
otherwise attach `\x7buserId, username, role\x7d` from the live user row.
The JWT `iat` is in seconds and is converted to milliseconds. -/
def authenticate (db : DB) (payload : JWTPayload) : AuthResult :=
  match db.users.find? (fun u => u.id == payload.userId && u.isActive) with
  | none => .rejected 401 "User not found or inactive"
  | some user =>
      let tokenIssuedAt := payload.iat * 1000
      match user.passwordChangedAt with
      | some changedAt =>
          if tokenIssuedAt < changedAt then
            .rejected 401 "Password has been changed. Please login again"
          else
            .authenticated ⟨user.id, user.username, user.role⟩
      | none => .authenticated ⟨user.id, user.username, user.role⟩

/-! ## Sample data for concrete instantiations -/

def sampleHash : BcryptHash := hashPassword 7 "Str0ng!Pass"

def sampleUser : User :=
  { id := 1, username := "alice", email := "a@x.com", password := sampleHash
    role := "user", isActive := true, failedLoginAttempts := 0
    lockoutUntil := none, passwordChangedAt := none
    lastLoginAt := none, lastLoginIP := none }

def sampleDb : DB := ⟨[sampleUser], [], []⟩

def lockedUser : User :=
  { sampleUser with failedLoginAttempts := 5, lockoutUntil := some 1000 }

def lockedDb : DB := ⟨[lockedUser], [], []⟩

def staleUser : User := { sampleUser with passwordChangedAt := some 5000 }

def staleDb : DB := ⟨[staleUser], [], []⟩

def fourFailUser : User := { sampleUser with failedLoginAttempts := 4 }

def fourFailDb : DB := ⟨[fourFailUser], [], []⟩

def sampleTokenRow : RefreshTokenRow := ⟨"tok1", 1, 9000, false⟩

def otherTokenRow : RefreshTokenRow := ⟨"tok2", 2, 9000, false⟩

def tokenDb : DB := ⟨[sampleUser], [sampleTokenRow, otherTokenRow], []⟩

/-! ## Helper lemmas -/

theorem find?_map_comm {α : Type} (l : List α) (g : α → α) (p : α → Bool)
    (hg : ∀ a, p (g a) = p a) : (l.map g).find? p = (l.find? p).map g := by
  induction l with
  | nil => rfl
  | cons a t ih =>
      by_cases h : p a = true
      · simp [List.find?_cons, hg, h]
      · have h' : p a = false := by simpa using h
        simp [List.find?_cons, hg, h', ih]

theorem findUserByEmail_updateUserById (db : DB) (email : String) (user : User)
    (f : User → User) (hf : ∀ v, (f v).email = v.email)
    (h : findUserByEmail db email = some user) :
    findUserByEmail (updateUserById db user.id f) email = some (f user) := by
  unfold findUserByEmail updateUserById at *
  rw [find?_map_comm _ _ _ (fun a => by by_cases hid : a.id == user.id <;> simp [hid, hf]), h]
  simp

theorem mem_ite_singleton {m a : String} {c : Prop} [Decidable c] :
    m ∈ (if c then [a] else ([] : List String)) ↔ c ∧ m = a := by
  split <;> simp_all

theorem refreshTokenAction_preserves_state (db : DB) (now : Nat)
    (cookie : Option String) : (refreshTokenAction db now cookie).2 = db := by
  match cookie with
  | none => rfl
  | some tok =>
      cases hfind : db.refreshTokens.find? (fun r =>
          r.token == tok && !r.isRevoked && decide (now < r.expiresAt)) with
      | none => simp [refreshTokenAction, hfind]
      | some r =>
          cases howner : db.users.find? (fun u => u.id == r.userId) with
          | none => simp [refreshTokenAction, hfind, howner]
          | some owner =>
              by_cases h : owner.isActive <;>
                simp [refreshTokenAction, hfind, howner, h]

/-- State change of the wrong-password branch of `login`: the response is
the generic 401, the found user's row gets the incremented counter and the
recomputed lockout, the refresh-token table is untouched and one audit
entry is appended. -/
theorem login_wrong_password_state (db : DB) (now : Nat)
    (email pw ip ua tok : String) (user : User)
    (hfind : findUserByEmail db email = some user)
    (hactive : user.isActive = true)
    (hunlocked : isLockedOut user now = false)
    (hcmp : comparePassword pw user.password = false) :
    (login db now email pw ip ua tok).1 = .err 401 "Invalid email or password" ∧
    findUserByEmail (login db now email pw ip ua tok).2 email =
      some { user with
        failedLoginAttempts := user.failedLoginAttempts + 1
        lockoutUntil := if user.failedLoginAttempts + 1 ≥ 5
          then some (now + 30 * 60 * 1000) else none } ∧
    (login db now email pw ip ua tok).2.refreshTokens = db.refreshTokens ∧
    (login db now email pw ip ua tok).2.loginLogs = db.loginLogs ++
      [⟨some user.id, email, ip, ua, false,
        "Invalid password (attempt " ++
          toString (user.failedLoginAttempts + 1) ++ ")"⟩] := by
  have h2 : (login db now email pw ip ua tok).2 =
      appendLog (updateUserById db user.id (fun u =>
        { u with failedLoginAttempts := user.failedLoginAttempts + 1
                 lockoutUntil := if user.failedLoginAttempts + 1 ≥ 5
                   then some (now + 30 * 60 * 1000) else none }))
        ⟨some user.id, email, ip, ua, false,
         "Invalid password (attempt " ++
           toString (user.failedLoginAttempts + 1) ++ ")"⟩ := by
    simp [login, hfind, hactive, hunlocked, hcmp]
  refine ⟨?_, ?_, ?_, ?_⟩
  · simp [login, hfind, hactive, hunlocked, hcmp]
  · rw [h2]
    exact findUserByEmail_updateUserById db email user _ (fun v => rfl) hfind
  · rw [h2]; rfl
  · rw [h2]; rfl

/-- State change of the success branch of `login`: the response carries the
access-token claims of the logged-in user and the refresh cookie, the
user's counters are reset and the login stamped, a 7-day refresh-token row
and one successful audit entry are appended. -/
theorem login_success_state (db : DB) (now : Nat)
    (email pw ip ua tok : String) (user : User)
    (hfind : findUserByEmail db email = some user)
    (hactive : user.isActive = true)
    (hunlocked : isLockedOut user now = false)
    (hcmp : comparePassword pw user.password = true) :
    (login db now email pw ip ua tok).1 =
      .ok user.id user.username user.email user.role
        ⟨user.id, user.username, user.role⟩ tok ∧
    findUserByEmail (login db now email pw ip ua tok).2 email =
      some { user with failedLoginAttempts := 0, lockoutUntil := none
                       lastLoginAt := some now, lastLoginIP := some ip } ∧
    (login db now email pw ip ua tok).2.refreshTokens =
      db.refreshTokens ++ [⟨tok, user.id, now + 7 * 24 * 60 * 60 * 1000, false⟩] ∧
    (login db now email pw ip ua tok).2.loginLogs = db.loginLogs ++
      [⟨some user.id, email, ip, ua, true, "Successful login"⟩] := by
  have h2 : (login db now email pw ip ua tok).2 =
      appendLog { (updateUserById db user.id (fun u =>
          { u with failedLoginAttempts := 0, lockoutUntil := none
                   lastLoginAt := some now, lastLoginIP := some ip })) with
        refreshTokens := db.refreshTokens ++
          [⟨tok, user.id, now + 7 * 24 * 60 * 60 * 1000, false⟩] }
        ⟨some user.id, email, ip, ua, true, "Successful login"⟩ := by
    simp [login, hfind, hactive, hunlocked, hcmp, updateUserById, appendLog]
  refine ⟨?_, ?_, ?_, ?_⟩
  · simp [login, hfind, hactive, hunlocked, hcmp]
  · rw [h2]
    exact findUserByEmail_updateUserById db email user _ (fun v => rfl) hfind
  · rw [h2]; rfl
  · rw [h2]; rfl

/-! ## C8: completeness of the strength validator -/

/-- C8: for every input string, `validatePasswordStrength` reports `valid`
exactly when its error list is empty, and each of the six rule messages
(too short, no uppercase, no lowercase, no digit, no special character,
common-password denylist hit) is in the returned list exactly when the
corresponding rule is violated — so the list is always the complete set of
violations, never a strict subset. -/
theorem validatePasswordStrength_complete (p : String) :
    ((validatePasswordStrength p).valid = true ↔
      (validatePasswordStrength p).errors = []) ∧
    (msgLength ∈ (validatePasswordStrength p).errors ↔ p.length < 8) ∧
    (msgUpper ∈ (validatePasswordStrength p).errors ↔
      p.data.any (fun c => 'A' ≤ c && c ≤ 'Z') = false) ∧
    (msgLower ∈ (validatePasswordStrength p).errors ↔
      p.data.any (fun c => 'a' ≤ c && c ≤ 'z') = false) ∧
    (msgDigit ∈ (validatePasswordStrength p).errors ↔
      p.data.any (fun c => '0' ≤ c && c ≤ '9') = false) ∧
    (msgSpecial ∈ (validatePasswordStrength p).errors ↔
      p.data.any (fun c => specialCharacterSet.data.contains c) = false) ∧
    (msgCommon ∈ (validatePasswordStrength p).errors ↔
      commonPasswords.contains (strToLower p) = true) := by
  refine ⟨?_, ?_, ?_, ?_, ?_, ?_, ?_⟩ <;>
    simp [validatePasswordStrength, msgLength, msgUpper, msgLower, msgDigit,
      msgSpecial, msgCommon]

/-! ## C9: hash round trip and hash ≠ plaintext -/

/-- C9: verifying a plaintext against its own stored hash always succeeds,
and the rendered stored hash is never the plaintext itself (it carries the
bcrypt format marker and the salt, so it is strictly longer). -/
theorem hashPassword_roundtrip_and_distinct (salt : Nat) (p : String) :
    comparePassword p (hashPassword salt p) = true ∧
    ((hashPassword salt p).render == p) = false := by
  constructor
  · simp [comparePassword, hashPassword]
  · rw [beq_eq_false_iff_ne]
    intro h
    have hl : (hashPassword salt p).render.length = p.length := by rw [h]
    simp [BcryptHash.render, hashPassword, bcryptDigest, String.length_append,
      show ("$2b$12$" : String).length = 7 from rfl,
      show ("$" : String).length = 1 from rfl] at hl
    omega

/-! ## C5: stale-token rejection in the authentication middleware -/

/-- C5: once the access token has been verified and the referenced user
loaded (active), the middleware rejects with the stale-token 401 whenever
the user's `passwordChangedAt` is strictly later than the token's issued-at
time (seconds × 1000), even though the token has not expired; otherwise it
attaches `\x7buserId, username, role\x7d` taken from the live user row. -/
theorem authenticate_stale_token (db : DB) (payload : JWTPayload) (user : User)
    (hfind : db.users.find? (fun u => u.id == payload.userId && u.isActive) =
      some user) :
    (∀ changedAt, user.passwordChangedAt = some changedAt →
      payload.iat * 1000 < changedAt →
      authenticate db payload =
        .rejected 401 "Password has been changed. Please login again") ∧
    ((user.passwordChangedAt = none ∨
      ∃ changedAt, user.passwordChangedAt = some changedAt ∧
        changedAt ≤ payload.iat * 1000) →
      authenticate db payload =
        .authenticated ⟨user.id, user.username, user.role⟩) := by
  constructor
  · intro changedAt hchanged hlt
    simp [authenticate, hfind, hchanged, hlt]
  · rintro (hnone | ⟨changedAt, hchanged, hle⟩)
    · simp [authenticate, hfind, hnone]
    · simp [authenticate, hfind, hchanged, Nat.not_lt.mpr hle]

theorem authenticate_stale_token_witness :
    authenticate staleDb ⟨1, "whoever", "whatever", 4⟩ =
      .rejected 401 "Password has been changed. Please login again" ∧
    authenticate sampleDb ⟨1, "whoever", "whatever", 4⟩ =
      .authenticated ⟨1, "alice", "user"⟩ :=
  ⟨(authenticate_stale_token staleDb ⟨1, "whoever", "whatever", 4⟩ staleUser
      (by decide)).1 5000 (by decide) (by decide),
   (authenticate_stale_token sampleDb ⟨1, "whoever", "whatever", 4⟩ sampleUser
      (by decide)).2 (Or.inl (by decide))⟩

/-! ## C6: logout revokes only the caller's own token row -/

/-- C6: logout always answers the same success response with the cookie
cleared, whether or not a matching row exists; with a cookie present it
rewrites exactly the rows whose token value and owning user id both match
the caller, setting only `isRevoked`; every row owned by a different user
is left completely unchanged (it is a fixed point of the rewrite and stays
in the table as-is), and the user table and audit log are untouched. -/
theorem logout_scoped_revocation (db : DB) (callerId : Nat) :
    (∀ cookie, (logout db callerId cookie).1 =
      ⟨200, true, "Logged out successfully", true⟩) ∧
    (logout db callerId none).2 = db ∧
    (∀ tok,
      (logout db callerId (some tok)).2.users = db.users ∧
      (logout db callerId (some tok)).2.loginLogs = db.loginLogs ∧
      (logout db callerId (some tok)).2.refreshTokens =
        db.refreshTokens.map (fun r =>
          if r.token == tok && r.userId == callerId
          then { r with isRevoked := true } else r) ∧
      (∀ r : RefreshTokenRow, r.userId ≠ callerId →
        (if r.token == tok && r.userId == callerId
         then { r with isRevoked := true } else r) = r) ∧
      (∀ r ∈ db.refreshTokens, r.userId ≠ callerId →
        r ∈ (logout db callerId (some tok)).2.refreshTokens) ∧
      (∀ r : RefreshTokenRow, r.token = tok → r.userId = callerId →
        (if r.token == tok && r.userId == callerId
         then { r with isRevoked := true } else r) = { r with isRevoked := true })) := by
  refine ⟨fun cookie => ?_, rfl, fun tok => ⟨rfl, rfl, rfl, ?_, ?_, ?_⟩⟩
  · cases cookie <;> rfl
  · intro r hr
    simp [show (r.userId == callerId) = false from by simpa using hr]
  · intro r hmem hr
    refine List.mem_map.mpr ⟨r, hmem, ?_⟩
    simp [show (r.userId == callerId) = false from by simpa using hr]
  · intro r htok hid
    simp [htok, hid]

theorem logout_scoped_revocation_witness :
    (logout tokenDb 1 (some "tok1")).1 =
      ⟨200, true, "Logged out successfully", true⟩ ∧
    otherTokenRow ∈ (logout tokenDb 1 (some "tok1")).2.refreshTokens :=
  ⟨(logout_scoped_revocation tokenDb 1).1 (some "tok1"),
   ((logout_scoped_revocation tokenDb 1).2.2 "tok1").2.2.2.2.1 otherTokenRow
     (by decide) (by decide)⟩

/-! ## C7: refresh-token validation and non-rotation -/

/-- C7: refresh rejects with the missing-token 401 when the cookie is
absent; with a cookie it rejects with the invalid-token 401 exactly when no
row matches the value unrevoked and unexpired, or the matched row's owning
user is inactive; on success the new access token embeds the owning user's
current username and role; and the store (in particular the refresh-token
row) is never modified. -/
theorem refreshTokenAction_validation (db : DB) (now : Nat) :
    (refreshTokenAction db now none = (.err 401 "Refresh token not found", db)) ∧
    (∀ cookie, (refreshTokenAction db now cookie).2 = db) ∧
    (∀ tok,
      (db.refreshTokens.find? (fun r =>
          r.token == tok && !r.isRevoked && decide (now < r.expiresAt)) = none →
        (refreshTokenAction db now (some tok)).1 =
          .err 401 "Invalid or expired refresh token") ∧
      (∀ r owner,
        db.refreshTokens.find? (fun r =>
          r.token == tok && !r.isRevoked && decide (now < r.expiresAt)) = some r →
        db.users.find? (fun u => u.id == r.userId) = some owner →
        ((owner.isActive = false →
          (refreshTokenAction db now (some tok)).1 =
            .err 401 "Invalid or expired refresh token") ∧
         (owner.isActive = true →
          (refreshTokenAction db now (some tok)).1 =
            .ok ⟨owner.id, owner.username, owner.role⟩)))) := by
  refine ⟨rfl, fun cookie => refreshTokenAction_preserves_state db now cookie,
    fun tok => ⟨fun hnone => ?_, ?_⟩⟩
  · simp [refreshTokenAction, hnone]
  · intro r owner hfind howner
    constructor
    · intro hinactive
      simp [refreshTokenAction, hfind, howner, hinactive]
    · intro hactive
      simp [refreshTokenAction, hfind, howner, hactive]

theorem refreshTokenAction_validation_witness :
    (refreshTokenAction tokenDb 50 (some "tok1")).1 =
      .ok ⟨1, "alice", "user"⟩ ∧
    (refreshTokenAction tokenDb 50 (some "missing")).1 =
      .err 401 "Invalid or expired refresh token" :=
  ⟨(((refreshTokenAction_validation tokenDb 50).2.2 "tok1").2 sampleTokenRow
      sampleUser (by decide) (by decide)).2 (by decide),
   ((refreshTokenAction_validation tokenDb 50).2.2 "missing").1 (by decide)⟩

/-! ## C4: login decision order, client messages and audit reasons -/

/-- C4: login decides in the fixed order user-not-found, inactive, locked,
wrong password, success; branches 1 and 4 answer the same generic
"Invalid email or password" while deactivation and lockout answer their own
specific message, and in every branch the audit entry carries the
branch-specific reason. -/
theorem login_branch_messages (db : DB) (now : Nat)
    (email pw ip ua tok : String) :
    (findUserByEmail db email = none →
      login db now email pw ip ua tok =
        (.err 401 "Invalid email or password",
         appendLog db ⟨none, email, ip, ua, false, "User not found"⟩)) ∧
    (∀ user, findUserByEmail db email = some user →
      (user.isActive = false →
        login db now email pw ip ua tok =
          (.err 401 "Account has been deactivated",
           appendLog db ⟨some user.id, email, ip, ua, false,
             "Account deactivated"⟩)) ∧
      (user.isActive = true → isLockedOut user now = true →
        login db now email pw ip ua tok =
          (.err 423 "Account is temporarily locked due to too many failed attempts",
           appendLog db ⟨some user.id, email, ip, ua, false,
             "Account locked"⟩)) ∧
      (user.isActive = true → isLockedOut user now = false →
        comparePassword pw user.password = false →
        (login db now email pw ip ua tok).1 =
          .err 401 "Invalid email or password" ∧
        (login db now email pw ip ua tok).2.loginLogs = db.loginLogs ++
          [⟨some user.id, email, ip, ua, false,
            "Invalid password (attempt " ++
              toString (user.failedLoginAttempts + 1) ++ ")"⟩]) ∧
      (user.isActive = true → isLockedOut user now = false →
        comparePassword pw user.password = true →
        (login db now email pw ip ua tok).1 =
          .ok user.id user.username user.email user.role
            ⟨user.id, user.username, user.role⟩ tok ∧
        (login db now email pw ip ua tok).2.loginLogs = db.loginLogs ++
          [⟨some user.id, email, ip, ua, true, "Successful login"⟩])) := by
  constructor
  · intro hnone
    simp [login, hnone]
  · intro user hfind
    refine ⟨fun hinactive => ?_, fun hactive hlocked => ?_,
      fun hactive hunlocked hcmp => ?_, fun hactive hunlocked hcmp => ?_⟩
    · simp [login, hfind, hinactive]
    · simp [login, hfind, hactive, hlocked]
    · constructor <;>
        simp [login, hfind, hactive, hunlocked, hcmp, appendLog, updateUserById]
    · constructor <;>
        simp [login, hfind, hactive, hunlocked, hcmp, appendLog, updateUserById]

theorem login_branch_messages_witness :
    (login lockedDb 50 "a@x.com" "Str0ng!Pass" "ip" "ua" "t").1 =
      .err 423 "Account is temporarily locked due to too many failed attempts" ∧
    (login sampleDb 50 "nobody@x.com" "pw" "ip" "ua" "t").1 =
      .err 401 "Invalid email or password" :=
  ⟨by
    have h := ((login_branch_messages lockedDb 50 "a@x.com" "Str0ng!Pass"
      "ip" "ua" "t").2 lockedUser (by decide)).2.1 (by decide) (by decide)
    rw [h],
   by
    have h := (login_branch_messages sampleDb 50 "nobody@x.com" "pw"
      "ip" "ua" "t").1 (by decide)
    rw [h]⟩

/-! ## C10: rejection branches of login write nothing but the audit entry -/

/-- C10 (implicit frame property): when login rejects because the user is
unknown, deactivated, or locked, no user row and no refresh-token row is
touched — in particular `failedLoginAttempts` and `lockoutUntil` keep their
values — and the only store write is the single appended audit entry. -/
theorem login_reject_branches_frame (db : DB) (now : Nat)
    (email pw ip ua tok : String) :
    (findUserByEmail db email = none →
      (login db now email pw ip ua tok).2.users = db.users ∧
      (login db now email pw ip ua tok).2.refreshTokens = db.refreshTokens ∧
      (login db now email pw ip ua tok).2.loginLogs = db.loginLogs ++
        [⟨none, email, ip, ua, false, "User not found"⟩]) ∧
    (∀ user, findUserByEmail db email = some user →
      (user.isActive = false →
        (login db now email pw ip ua tok).2.users = db.users ∧
        (login db now email pw ip ua tok).2.refreshTokens = db.refreshTokens ∧
        (login db now email pw ip ua tok).2.loginLogs = db.loginLogs ++
          [⟨some user.id, email, ip, ua, false, "Account deactivated"⟩]) ∧
      (user.isActive = true → isLockedOut user now = true →
        (login db now email pw ip ua tok).2.users = db.users ∧
        (login db now email pw ip ua tok).2.refreshTokens = db.refreshTokens ∧
        (login db now email pw ip ua tok).2.loginLogs = db.loginLogs ++
          [⟨some user.id, email, ip, ua, false, "Account locked"⟩])) := by
  refine ⟨fun hnone => ?_, fun user hfind =>
    ⟨fun hinactive => ?_, fun hactive hlocked => ?_⟩⟩
  · refine ⟨?_, ?_, ?_⟩ <;> simp [login, hnone, appendLog]
  · refine ⟨?_, ?_, ?_⟩ <;> simp [login, hfind, hinactive, appendLog]
  · refine ⟨?_, ?_, ?_⟩ <;> simp [login, hfind, hactive, hlocked, appendLog]

theorem login_reject_branches_frame_witness :
    (login lockedDb 50 "a@x.com" "Str0ng!Pass" "ip" "ua" "t").2.users =
      lockedDb.users ∧
    (login lockedDb 50 "a@x.com" "Str0ng!Pass" "ip" "ua" "t").2.loginLogs =
      [⟨some 1, "a@x.com", "ip", "ua", false, "Account locked"⟩] :=
  ⟨(((login_reject_branches_frame lockedDb 50 "a@x.com" "Str0ng!Pass"
      "ip" "ua" "t").2 lockedUser (by decide)).2 (by decide) (by decide)).1,
   (((login_reject_branches_frame lockedDb 50 "a@x.com" "Str0ng!Pass"
      "ip" "ua" "t").2 lockedUser (by decide)).2 (by decide) (by decide)).2.2⟩

/-! ## C3: failed-password bookkeeping -/

/-- C3: a login attempt that reaches password comparison and fails it
increments the user's `failedLoginAttempts` by exactly 1, sets
`lockoutUntil` to now + 30 minutes exactly when the new count reaches 5 and
clears it otherwise, logs the reason "Invalid password (attempt N)" with N
the new count, and answers the generic invalid-credentials 401. -/
theorem login_wrong_password_bookkeeping (db : DB) (now : Nat)
    (email pw ip ua tok : String) (user : User)
    (hfind : findUserByEmail db email = some user)
    (hactive : user.isActive = true)
    (hunlocked : isLockedOut user now = false)
    (hcmp : comparePassword pw user.password = false) :
    (login db now email pw ip ua tok).1 = .err 401 "Invalid email or password" ∧
    findUserByEmail (login db now email pw ip ua tok).2 email =
      some { user with
        failedLoginAttempts := user.failedLoginAttempts + 1
        lockoutUntil := if user.failedLoginAttempts + 1 ≥ 5
          then some (now + 30 * 60 * 1000) else none } ∧
    (login db now email pw ip ua tok).2.loginLogs = db.loginLogs ++
      [⟨some user.id, email, ip, ua, false,
        "Invalid password (attempt " ++
          toString (user.failedLoginAttempts + 1) ++ ")"⟩] := by
  obtain ⟨h1, h2, _, h4⟩ :=
    login_wrong_password_state db now email pw ip ua tok user
      hfind hactive hunlocked hcmp
  exact ⟨h1, h2, h4⟩

theorem login_wrong_password_bookkeeping_witness :
    (login fourFailDb 100 "a@x.com" "wrong" "ip" "ua" "t").1 =
      .err 401 "Invalid email or password" ∧
    findUserByEmail (login fourFailDb 100 "a@x.com" "wrong" "ip" "ua" "t").2
      "a@x.com" =
      some { fourFailUser with failedLoginAttempts := 5
                               lockoutUntil := some 1800100 } ∧
    (login fourFailDb 100 "a@x.com" "wrong" "ip" "ua" "t").2.loginLogs =
      [⟨some 1, "a@x.com", "ip", "ua", false, "Invalid password (attempt 5)"⟩] := by
  obtain ⟨h1, h2, h3⟩ :=
    login_wrong_password_bookkeeping fourFailDb 100 "a@x.com" "wrong"
      "ip" "ua" "t" fourFailUser (by decide) (by decide) (by decide) (by decide)
  exact ⟨h1, h2, h3⟩

/-! ## C2: lockout blocks correct passwords until it elapses -/

/-- C2: while `lockoutUntil` lies in the future a login attempt is answered
with the locked 423 no matter what password was supplied; once it has
elapsed, a login with the correct password succeeds and resets
`failedLoginAttempts` to 0 and `lockoutUntil` to null.  In particular, for
a user with 4 recorded failures, a further wrong password locks the account
for 30 minutes: within that window even the correct password is rejected
with 423, and after it the correct password succeeds with the counter back
at 0. -/
theorem login_lockout_behavior (db : DB) (email ip ua : String) (user : User)
    (hfind : findUserByEmail db email = some user)
    (hactive : user.isActive = true) :
    (∀ now pw tok t, user.lockoutUntil = some t → now < t →
      (login db now email pw ip ua tok).1 =
        .err 423 "Account is temporarily locked due to too many failed attempts") ∧
    (∀ now pw tok t, user.lockoutUntil = some t → t ≤ now →
      comparePassword pw user.password = true →
      (login db now email pw ip ua tok).1 =
        .ok user.id user.username user.email user.role
          ⟨user.id, user.username, user.role⟩ tok ∧
      findUserByEmail (login db now email pw ip ua tok).2 email =
        some { user with failedLoginAttempts := 0, lockoutUntil := none
                         lastLoginAt := some now, lastLoginIP := some ip }) ∧
    (∀ now1 now2 wrongPw correctPw tok1 tok2,
      user.failedLoginAttempts = 4 → isLockedOut user now1 = false →
      comparePassword wrongPw user.password = false →
      comparePassword correctPw user.password = true →
      ((now2 < now1 + 30 * 60 * 1000 →
        (login (login db now1 email wrongPw ip ua tok1).2 now2 email correctPw
          ip ua tok2).1 =
          .err 423 "Account is temporarily locked due to too many failed attempts") ∧
       (now1 + 30 * 60 * 1000 ≤ now2 →
        (login (login db now1 email wrongPw ip ua tok1).2 now2 email correctPw
          ip ua tok2).1 =
          .ok user.id user.username user.email user.role
            ⟨user.id, user.username, user.role⟩ tok2 ∧
        ∃ u2, findUserByEmail (login (login db now1 email wrongPw ip ua tok1).2
            now2 email correctPw ip ua tok2).2 email = some u2 ∧
          u2.failedLoginAttempts = 0 ∧ u2.lockoutUntil = none))) := by
  refine ⟨?_, ?_, ?_⟩
  · intro now pw tok t hlock hnow
    have hlocked : isLockedOut user now = true := by
      simp [isLockedOut, hlock, hnow]
    simp [login, hfind, hactive, hlocked]
  · intro now pw tok t hlock hnow hcmp
    have hunlocked : isLockedOut user now = false := by
      simp [isLockedOut, hlock, Nat.not_lt.mpr hnow]
    obtain ⟨h1, h2, _, _⟩ :=
      login_success_state db now email pw ip ua tok user
        hfind hactive hunlocked hcmp
    exact ⟨h1, h2⟩
  · intro now1 now2 wrongPw correctPw tok1 tok2 h4 hunlocked1 hwrong hcorrect
    obtain ⟨_, hfind1, _, _⟩ :=
      login_wrong_password_state db now1 email wrongPw ip ua tok1 user
        hfind hactive hunlocked1 hwrong
    rw [h4] at hfind1
    have hfind1' : findUserByEmail (login db now1 email wrongPw ip ua tok1).2
        email =
        some { user with failedLoginAttempts := 5
                         lockoutUntil := some (now1 + 30 * 60 * 1000) } := by
      rw [hfind1]
      norm_num
    generalize hdb1 : (login db now1 email wrongPw ip ua tok1).2 = db1 at hfind1'
    constructor
    · intro hwindow
      simp [login, hfind1', hactive, isLockedOut, hwindow]
    · intro helapsed
      have hunlocked2 : isLockedOut
          { user with failedLoginAttempts := 5
                      lockoutUntil := some (now1 + 30 * 60 * 1000) } now2 = false := by
        simp [isLockedOut, Nat.not_lt.mpr helapsed]
      obtain ⟨h1, h2, _, _⟩ :=
        login_success_state db1 now2 email correctPw ip ua tok2
          { user with failedLoginAttempts := 5
                      lockoutUntil := some (now1 + 30 * 60 * 1000) }
          hfind1' hactive hunlocked2 hcorrect
      exact ⟨h1, ⟨_, h2, rfl, rfl⟩⟩

theorem login_lockout_behavior_witness :
    (login lockedDb 50 "a@x.com" "Str0ng!Pass" "ip" "ua" "t").1 =
      .err 423 "Account is temporarily locked due to too many failed attempts" ∧
    (login lockedDb 2000 "a@x.com" "Str0ng!Pass" "ip" "ua" "t").1 =
      .ok 1 "alice" "a@x.com" "user" ⟨1, "alice", "user"⟩ "t" :=
  ⟨(login_lockout_behavior lockedDb "a@x.com" "ip" "ua" lockedUser
      (by decide) (by decide)).1 50 "Str0ng!Pass" "t" 1000 rfl (by decide),
   ((login_lockout_behavior lockedDb "a@x.com" "ip" "ua" lockedUser
      (by decide) (by decide)).2.1 2000 "Str0ng!Pass" "t" 1000 rfl
      (by decide) (by decide)).1⟩

/-! ## C1: audit logging (corrected) -/

/-- C1 as stated fails on the code: a register attempt rejected for a
duplicate email is a register attempt that appends no audit record at all
(the conflict path returns before any `loginLog.create`). -/
theorem register_conflict_appends_no_audit_log :
    (register sampleDb "bob" "a@x.com" "Aa1!aaaa" "ip" "ua" 2 0).1 =
      .conflict "Email already exists" ∧
    sampleDb.loginLogs = [] ∧
    (register sampleDb "bob" "a@x.com" "Aa1!aaaa" "ip" "ua" 2 0).2.loginLogs =
      [] := by
  refine ⟨?_, rfl, ?_⟩ <;> rfl

/-- C1 amended: every login attempt, successful or not, appends exactly one
audit record carrying the attempted email, ip, user agent, a success flag
and a reason; a register attempt appends exactly one record when it
succeeds and none when it is rejected for a duplicate identity or a weak
password; and no operation mutates or deletes existing audit records —
login and register only append, refresh and logout leave the log
unchanged. -/
theorem audit_log_append_only (db : DB) (now : Nat)
    (username email pw ip ua tok : String) (newId salt callerId : Nat)
    (cookie : Option String) :
    (∃ uid succ reason, (login db now email pw ip ua tok).2.loginLogs =
      db.loginLogs ++ [⟨uid, email, ip, ua, succ, reason⟩]) ∧
    (∀ m, (register db username email pw ip ua newId salt).1 = .conflict m →
      (register db username email pw ip ua newId salt).2.loginLogs =
        db.loginLogs) ∧
    (∀ m errs,
      (register db username email pw ip ua newId salt).1 = .weakPassword m errs →
      (register db username email pw ip ua newId salt).2.loginLogs =
        db.loginLogs) ∧
    (∀ i un em ro,
      (register db username email pw ip ua newId salt).1 = .created i un em ro →
      (register db username email pw ip ua newId salt).2.loginLogs =
        db.loginLogs ++ [⟨some newId, email, ip, ua, true, "User registration"⟩]) ∧
    (refreshTokenAction db now cookie).2.loginLogs = db.loginLogs ∧
    (logout db callerId cookie).2.loginLogs = db.loginLogs := by
  refine ⟨?_, ?_, ?_, ?_, ?_, ?_⟩
  · cases hfind : findUserByEmail db email with
    | none =>
        exact ⟨none, false, "User not found", by simp [login, hfind, appendLog]⟩
    | some user =>
        cases hactive : user.isActive with
        | false =>
            exact ⟨some user.id, false, "Account deactivated",
              by simp [login, hfind, hactive, appendLog]⟩
        | true =>
            cases hlock : isLockedOut user now with
            | true =>
                exact ⟨some user.id, false, "Account locked",
                  by simp [login, hfind, hactive, hlock, appendLog]⟩
            | false =>
                cases hcmp : comparePassword pw user.password with
                | false =>
                    exact ⟨some user.id, false, "Invalid password (attempt " ++
                        toString (user.failedLoginAttempts + 1) ++ ")",
                      by simp [login, hfind, hactive, hlock, hcmp, appendLog,
                        updateUserById]⟩
                | true =>
                    exact ⟨some user.id, true, "Successful login",
                      by simp [login, hfind, hactive, hlock, hcmp, appendLog,
                        updateUserById]⟩
  · intro m h
    cases hex : db.users.find?
        (fun u => u.email == email || u.username == strToLower username) with
    | some ex => simp [register, hex]
    | none =>
        cases hv : (validatePasswordStrength pw).valid <;>
          simp [register, hex, hv] at h
  · intro m errs h
    cases hex : db.users.find?
        (fun u => u.email == email || u.username == strToLower username) with
    | some ex => simp [register, hex] at h
    | none =>
        cases hv : (validatePasswordStrength pw).valid with
        | false => simp [register, hex, hv]
        | true => simp [register, hex, hv] at h
  · intro i un em ro h
    cases hex : db.users.find?
        (fun u => u.email == email || u.username == strToLower username) with
    | some ex => simp [register, hex] at h
    | none =>
        cases hv : (validatePasswordStrength pw).valid with
        | false => simp [register, hex, hv] at h
        | true => simp [register, hex, hv, appendLog]
  · rw [refreshTokenAction_preserves_state]
  · cases cookie <;> rfl

theorem audit_log_append_only_witness :
    (∃ uid succ reason,
      (login sampleDb 50 "nobody@x.com" "pw" "ip" "ua" "t").2.loginLogs =
        sampleDb.loginLogs ++ [⟨uid, "nobody@x.com", "ip", "ua", succ, reason⟩]) ∧
    (register sampleDb "bob" "b@x.com" "Aa1!aaaa" "ip" "ua" 2 0).2.loginLogs =
      sampleDb.loginLogs ++ [⟨some 2, "b@x.com", "ip", "ua", true,
        "User registration"⟩] :=
  ⟨(audit_log_append_only sampleDb 50 "bob" "nobody@x.com" "pw" "ip" "ua" "t"
      2 0 1 none).1,
   (audit_log_append_only sampleDb 50 "bob" "b@x.com" "Aa1!aaaa" "ip" "ua" "t"
      2 0 1 none).2.2.2.1 2 "bob" "b@x.com" "user" (by decide)⟩

end FruitApp
